import Mathlib

/-!
Verification of the xplain-copilot content-type classifier of the repository
(src/src/commands/pipe.py), history store (src/src/core/history_store.py),
pipe command persistence step (src/src/commands/pipe.py), and backend
response handling (src/src/core/copilot.py), as a shallow embedding in
Lean 4.  Python strings are modelled as Lean `String`s (lists of Unicode
code points, matching the Python code-point view of `str`); machine floats
appearing only in threshold comparisons of tiny rationals are modelled
with `ℚ` (exact at these magnitudes); fallible code returns `Except`.
-/

/-! ### Python string primitives -/

/-- Characters treated as whitespace by the Python `str.strip()` method
(ASCII whitespace plus the common extra code points; the rarer Unicode
space classes are irrelevant to classifier behaviour here). -/
def isPySpace (c : Char) : Bool :=
  c == ' ' || c == '\t' || c == '\n' || c == '\r' || c == '\x0b' || c == '\x0c' ||
  c == '\x1c' || c == '\x1d' || c == '\x1e' || c == '\x1f' || c == '\x85' || c == '\xa0'

/-- Python `str.strip()`: remove leading and trailing whitespace. -/
def pyStrip (s : String) : String :=
  ⟨((s.data.dropWhile isPySpace).reverse.dropWhile isPySpace).reverse⟩

/-- Line-boundary characters recognised by Python `str.splitlines()`. -/
def isPyLineBreak (c : Char) : Bool :=
  c == '\n' || c == '\r' || c == '\x0b' || c == '\x0c' ||
  c == '\x1c' || c == '\x1d' || c == '\x1e' || c == '\x85' ||
  c == '\u2028' || c == '\u2029'

/-- Worker for `pySplitlines`: `acc` holds the current line reversed.
A `"\r\n"` pair is one boundary; a terminal boundary produces no empty
trailing line, exactly as in Python. -/
def pySplitlinesAux : List Char → List Char → List (List Char)
  | [], acc => if acc.isEmpty then [] else [acc.reverse]
  | '\r' :: '\n' :: rest, acc => acc.reverse :: pySplitlinesAux rest []
  | c :: rest, acc =>
    if isPyLineBreak c then acc.reverse :: pySplitlinesAux rest []
    else pySplitlinesAux rest (c :: acc)

/-- Python `str.splitlines()`. -/
def pySplitlines (s : String) : List String :=
  (pySplitlinesAux s.data []).map fun cs => ⟨cs⟩

/-- Python `str.lower()` as a list of characters (agrees with Python on
the ASCII letters, the only ones occurring in the classifier
patterns). -/
def pyLower (s : String) : List Char := s.data.map Char.toLower

/-- Does `hay` start with `needle`? -/
def charsStartsWith : List Char → List Char → Bool
  | _, [] => true
  | [], _ :: _ => false
  | a :: as, b :: bs => a == b && charsStartsWith as bs

/-- Python `needle in hay` substring test on character lists. -/
def charsContains : List Char → List Char → Bool
  | [], needle => needle.isEmpty
  | h :: t, needle => charsStartsWith (h :: t) needle || charsContains t needle

/-- Case-insensitive Python `needle.lower() in hay.lower()`. -/
def strContainsCI (hay needle : String) : Bool :=
  charsContains (pyLower hay) (pyLower needle)

/-- Case-sensitive Python `needle in hay`. -/
def strContains (hay needle : String) : Bool :=
  charsContains hay.data needle.data

/-- Python `s[:n]` on strings. -/
def pyTruncate (s : String) (n : Nat) : String := ⟨s.data.take n⟩

/-- Python `l[-n:]` for a nonnegative `n`: the last `n` elements, or the
whole list when `n = 0` (since `-0 = 0` and `l[0:]` is all of `l`). -/
def pySliceLast (l : List α) (n : Nat) : List α :=
  if n = 0 then l else l.drop (l.length - n)

/-! ### Content-type classifier (src/src/commands/pipe.py) -/

/-- The `ERROR_PATTERNS` list from src/src/commands/pipe.py, verbatim. -/
def ERROR_PATTERNS : List String := [
  "Traceback (most recent call last)",
  "Error:",
  "Exception:",
  "error:",
  "FATAL",
  "FAIL",
  "panic:",
  "Segmentation fault",
  "ECONNREFUSED",
  "ENOENT",
  "EPERM",
  "errno",
  "SyntaxError",
  "TypeError",
  "ValueError",
  "KeyError",
  "IndexError",
  "AttributeError",
  "ImportError",
  "ModuleNotFoundError",
  "FileNotFoundError",
  "PermissionError",
  "RuntimeError",
  "NullPointerException",
  "ClassNotFoundException",
  "ArrayIndexOutOfBoundsException",
  "undefined is not a function",
  "Cannot read propert",
  "is not defined",
  "command not found",
  "No such file or directory",
  "Permission denied"]

/-- The `code_indicators` list from `_detect_content_type`, verbatim. -/
def code_indicators : List String := [
  "def ", "class ", "import ", "from ",
  "function ", "const ", "let ", "var ",
  "func ", "package ",
  "public ", "private ", "static ",
  "#include", "int main"]

/-- The error score of `_detect_content_type`: the nested
`for line / for pattern` loops increment once per `(line, pattern)` pair
whose pattern occurs case-insensitively in the line. -/
def error_score (lines : List String) : Nat :=
  (lines.map fun line => ERROR_PATTERNS.countP fun p => strContainsCI line p).sum

/-- The code score of `_detect_content_type`:
`sum(1 for line in lines for ind in code_indicators if ind in line)`. -/
def code_score (lines : List String) : Nat :=
  (lines.map fun line => code_indicators.countP fun ind => strContains line ind).sum

/-- Number of lines containing at least one error pattern
(case-insensitively) — the per-line count the specification describes. -/
def error_line_count (lines : List String) : Nat :=
  lines.countP fun line => ERROR_PATTERNS.any fun p => strContainsCI line p

/-- Number of lines containing at least one code-indicator fragment. -/
def code_line_count (lines : List String) : Nat :=
  lines.countP fun line => code_indicators.any fun ind => strContains line ind

/-- The line list the classifier works on: `content.strip().splitlines()`. -/
def detectLines (content : String) : List String := pySplitlines (pyStrip content)

/-- Embedding of `_detect_content_type` from src/src/commands/pipe.py.
The Python float divisions compare a rational with denominator at most the
line count against `0.05` / `0.1`; at such magnitudes the float
comparison agrees exactly with the rational one modelled here. -/
def detect_content_type (content : String) : String :=
  if (detectLines content).isEmpty then "unknown"
  else if 0 < error_score (detectLines content) ∧
      (0.05 : ℚ) < (error_score (detectLines content) : ℚ) / (detectLines content).length then
    "error"
  else if 0 < code_score (detectLines content) ∧
      (0.1 : ℚ) < (code_score (detectLines content) : ℚ) / (detectLines content).length then
    "code"
  else "auto"

/-- Executable companion of `detect_content_type` with the two float
threshold comparisons replaced by their exact integer equivalents
(`s / t > 1/d  ↔  t < d * s` for positive `t`); proved equal to
`detect_content_type` in `detect_content_type_eq_detectNat`. -/
def detectNat (content : String) : String :=
  if (detectLines content).isEmpty then "unknown"
  else if 0 < error_score (detectLines content) ∧
      (detectLines content).length < 20 * error_score (detectLines content) then
    "error"
  else if 0 < code_score (detectLines content) ∧
      (detectLines content).length < 10 * code_score (detectLines content) then
    "code"
  else "auto"

/-! ### History store (src/src/core/history_store.py) -/

/-- One history record, mirroring the `HistoryEntry` dataclass.
`metadata` is modelled as a string-keyed association list. -/
structure HistoryEntry where
  timestamp : ℚ
  command_type : String
  query : String
  explanation : String
  language : String
  metadata : List (String × String)
deriving DecidableEq, Repr

namespace HistoryStore

/-- Constant `HistoryStore.MAX_ENTRIES`. -/
def MAX_ENTRIES : Nat := 500

/-- The trim step of `HistoryStore._save`: drop to the most recent
`MAX_ENTRIES` entries when the count exceeds it (`entries[-500:]`).
The disk write itself carries no further logic. -/
def save (entries : List HistoryEntry) : List HistoryEntry :=
  if entries.length > MAX_ENTRIES then pySliceLast entries MAX_ENTRIES else entries

/-- Method `HistoryStore.add` restricted to its effect on the entry list:
append the new entry, then run the trim of `_save`. -/
def addEntry (entries : List HistoryEntry) (e : HistoryEntry) : List HistoryEntry :=
  save (entries ++ [e])

/-- Method `HistoryStore.add` with the entry assembled from its arguments as in
the source (`timestamp=time.time()` is passed in as `ts`). -/
def add (entries : List HistoryEntry) (ts : ℚ)
    (command_type query explanation language : String)
    (metadata : List (String × String)) : List HistoryEntry :=
  addEntry entries ⟨ts, command_type, query, explanation, language, metadata⟩

/-- Method `HistoryStore.list_entries`: optional truthy `command_type` filter
(Python treats `None` and `""` as no filter), then `entries[-limit:]`. -/
def list_entries (entries : List HistoryEntry) (limit : Nat)
    (command_type : Option String) : List HistoryEntry :=
  match command_type with
  | some ct =>
    if ct = "" then pySliceLast entries limit
    else pySliceLast (entries.filter fun e => e.command_type == ct) limit
  | none => pySliceLast entries limit

/-- The match predicate of `HistoryStore.search`:
`query_lower in e.query.lower() or query_lower in e.explanation.lower()`. -/
def matchesQuery (q : String) (e : HistoryEntry) : Bool :=
  strContainsCI e.query q || strContainsCI e.explanation q

/-- Method `HistoryStore.search`: filter by `matchesQuery`, then `matches[-limit:]`. -/
def search (entries : List HistoryEntry) (q : String) (limit : Nat) : List HistoryEntry :=
  pySliceLast (entries.filter (matchesQuery q)) limit

/-- Method `HistoryStore.get`: guard `not entries or index < 1 or index > len(entries)`
then `entries[-index]` (a valid negative index under the guard). -/
def get (entries : List HistoryEntry) (index : ℤ) : Option HistoryEntry :=
  if entries.isEmpty ∨ index < 1 ∨ index > entries.length then none
  else entries[entries.length - index.toNat]?

/-- Method `HistoryStore.clear`: the entry list becomes empty. -/
def clear : List HistoryEntry := []

/-- Method `HistoryStore.count`. -/
def count (entries : List HistoryEntry) : Nat := entries.length

/-- Outcomes of reading and parsing the backing JSON document in
`HistoryStore._load`: the text may fail `json.loads` (raising
`json.JSONDecodeError`), may decode to data under which building the
entries raises (`TypeError`/`KeyError` from `HistoryEntry(**entry)` or
from iterating a non-list), or may yield a well-shaped entry list. -/
inductive RawDoc where
  | notJson
  | badShape
  | good (entries : List HistoryEntry)
deriving DecidableEq

/-- State of the backing file as `_load` can encounter it: absent,
present but unreadable (`read_text` raises `OSError`), or readable with
the given parse outcome. -/
inductive DiskState where
  | missing
  | unreadable
  | stored (doc : RawDoc)
deriving DecidableEq

/-- Embedding of `HistoryStore._load` (first load, nothing cached):
a missing file yields `[]`; the `try` block catches exactly
`json.JSONDecodeError`, `TypeError` and `KeyError`, so a decode or
shape failure also yields `[]`, while `OSError` from `read_text`
propagates to the caller. -/
def load : DiskState → Except String (List HistoryEntry)
  | .missing => .ok []
  | .unreadable => .error "OSError: could not read history file"
  | .stored .notJson => .ok []
  | .stored .badShape => .ok []
  | .stored (.good es) => .ok es

end HistoryStore

/-! ### Pipe command persistence (src/src/commands/pipe.py, `pipe_cmd`) -/

/-- The preview built by `pipe_cmd` before saving to history:
`content[:200] if len(content) > 200 else content`. -/
def pipeQueryPreview (content : String) : String :=
  if content.length > 200 then pyTruncate content 200 else content

/-- The `query` text `pipe_cmd` hands to `history_store.add`, as a
function of the raw piped stdin: the handler first strips the input
(`content = sys.stdin.read().strip()`) and then truncates it to 200
characters. -/
def pipeStoredQuery (raw : String) : String :=
  pipeQueryPreview (pyStrip raw)

/-- The history append performed by `pipe_cmd` after a successful
explanation: `history_store.add("pipe", query_preview, explanation,
language=output_lang)` (metadata defaults to empty). -/
def pipeSaveToHistory (entries : List HistoryEntry) (ts : ℚ)
    (content explanation output_lang : String) : List HistoryEntry :=
  HistoryStore.add entries ts "pipe" (pipeQueryPreview content) explanation output_lang []

/-! ### Backend response handling (src/src/core/copilot.py) -/

/-- A JSON value, as `resp.json()` can produce it. -/
inductive JsonVal where
  | null
  | bool (b : Bool)
  | num (q : ℚ)
  | str (s : String)
  | arr (xs : List JsonVal)
  | obj (kvs : List (String × JsonVal))

/-- Python exceptions that the response-parsing code can raise. -/
inductive PyExc where
  | jsonDecodeError (msg : String)
  | keyError (k : String)
  | indexError
  | typeError (msg : String)
  | attributeError (msg : String)
deriving DecidableEq, Repr

/-- Error outcomes of `GitHubModelsBackend.ask_messages` as seen by the
caller: the `CopilotCLIError` hierarchy (`BackendNotAvailableError` is a
subclass), or a raw Python exception that the method does not catch. -/
inductive BackendErr where
  | copilotCLIError (msg : String)
  | backendNotAvailableError (msg : String)
  | uncaught (e : PyExc)
deriving DecidableEq, Repr

/-- Membership in the `CopilotCLIError` exception family. -/
def BackendErr.isCopilotCLI : BackendErr → Bool
  | .copilotCLIError _ => true
  | .backendNotAvailableError _ => true
  | .uncaught _ => false

/-- Python `str()` of the exception argument, as interpolated by the
f-strings of the source (`KeyError` shows its repr-quoted key; `IndexError` its
standard message). -/
def pyExcMessage : PyExc → String
  | .jsonDecodeError m => m
  | .keyError k => "\x27" ++ k ++ "\x27"
  | .indexError => "list index out of range"
  | .typeError m => m
  | .attributeError m => m

/-- Approximate Python `str()` of a JSON value, used only inside the
diagnostic text of the `"error" in data` branch. -/
def jsonToStr : JsonVal → String
  | .null => "None"
  | .bool true => "True"
  | .bool false => "False"
  | .num q => toString q
  | .str s => s
  | .arr _ => "<list>"
  | .obj _ => "<dict>"

/-- Python `"k" in data` on a JSON value: key membership for a dict,
element equality for a list, substring for a string, `TypeError`
otherwise. -/
def pyIn (k : String) : JsonVal → Except PyExc Bool
  | .obj kvs => .ok (kvs.any fun kv => kv.1 == k)
  | .arr xs => .ok (xs.any fun x => match x with | .str t => t == k | _ => false)
  | .str t => .ok (strContains t k)
  | _ => .error (.typeError "argument of type is not iterable")

/-- Python `data[k]` with a string key: dict lookup (`KeyError` when
absent), `TypeError` on lists, strings and scalars. -/
def pyGetItemStr : JsonVal → String → Except PyExc JsonVal
  | .obj kvs, k =>
    match kvs.find? (fun kv => kv.1 == k) with
    | some kv => .ok kv.2
    | none => .error (.keyError k)
  | .arr _, _ => .error (.typeError "list indices must be integers or slices, not str")
  | .str _, _ => .error (.typeError "string indices must be integers")
  | _, _ => .error (.typeError "object is not subscriptable")

/-- Python `data[i]` with a nonnegative integer index: list indexing
(`IndexError` out of range), `KeyError` on dicts (JSON object keys are
strings), one-character string on strings, `TypeError` on scalars. -/
def pyGetItemNat : JsonVal → Nat → Except PyExc JsonVal
  | .arr xs, i =>
    match xs.get? i with
    | some x => .ok x
    | none => .error .indexError
  | .obj _, i => .error (.keyError (toString i))
  | .str t, i =>
    match t.data.get? i with
    | some c => .ok (.str ⟨[c]⟩)
    | none => .error .indexError
  | _, _ => .error (.typeError "object is not subscriptable")

/-- The field access chain of the success path of `ask_messages`:
`data["choices"][0]["message"]["content"].strip()`. -/
def contentChain (data : JsonVal) : Except PyExc String := do
  let choices ← pyGetItemStr data "choices"
  let c0 ← pyGetItemNat choices 0
  let msg ← pyGetItemStr c0 "message"
  let content ← pyGetItemStr msg "content"
  match content with
  | .str t => pure (pyStrip t)
  | _ => throw (.attributeError "object has no attribute strip")

/-- Does `except (KeyError, IndexError)` catch this exception? -/
def caughtByParseHandler : PyExc → Bool
  | .keyError _ => true
  | .indexError => true
  | _ => false

/-- An HTTP response as `ask_messages` consumes it: status code, raw
body text, and the outcome of `resp.json()` on that body (an error
carries the `json.JSONDecodeError` message). -/
structure HttpResponse where
  status_code : ℤ
  text : String
  body : Except String JsonVal

/-- Embedding of `GitHubModelsBackend.ask_messages` over the single
response of its one synchronous POST (the method performs exactly one
call and no retry).  `token` is the result of `_get_github_token()`.
The `try` block catches only `KeyError` and `IndexError`; the
`CopilotCLIError` raised inside it for an `"error"` key, and any
`JSONDecodeError`, `TypeError` or `AttributeError`, propagate as is. -/
def ask_messages (token : Option String) (resp : HttpResponse) :
    Except BackendErr String :=
  match token with
  | none => .error (.backendNotAvailableError "No GitHub token available")
  | some _ =>
    if resp.status_code ≠ 200 then
      .error (.copilotCLIError
        ("GitHub Models API HTTP " ++ toString resp.status_code ++ ": " ++
          pyTruncate resp.text 300))
    else
      match resp.body with
      | .error m => .error (.uncaught (.jsonDecodeError m))
      | .ok data =>
        match pyIn "error" data with
        | .error e => .error (.uncaught e)
        | .ok true =>
          match pyGetItemStr data "error" with
          | .error e => .error (.uncaught e)
          | .ok errv =>
            match errv with
            | .obj kvs =>
              .error (.copilotCLIError ("GitHub Models API error: " ++
                jsonToStr (((kvs.find? fun kv => kv.1 == "message").map
                  fun kv => kv.2).getD errv)))
            | _ => .error (.uncaught (.attributeError "object has no attribute get"))
        | .ok false =>
          match contentChain data with
          | .ok t => .ok t
          | .error e =>
            if caughtByParseHandler e then
              .error (.copilotCLIError ("Failed to parse API response: " ++ pyExcMessage e))
            else .error (.uncaught e)

/-! ### Concrete sample inputs used by witnesses and counterexamples -/

/-- A 201-character input, longer than the pipe handler preview budget. -/
def longRaw : String := ⟨List.replicate 201 'a'⟩

/-- The three-entry store of the search example of the specification. -/
def dockerEntries : List HistoryEntry := [
  ⟨1, "pipe", "docker run nginx", "first answer", "en", []⟩,
  ⟨2, "cmd", "git push origin main", "second answer", "en", []⟩,
  ⟨3, "error", "docker: command not found", "third answer", "en", []⟩]

/-- Two further concrete entries for indexing examples. -/
def entryA : HistoryEntry := ⟨10, "cmd", "ls -la", "lists files", "en", []⟩

/-- Companion concrete entry to `entryA`. -/
def entryB : HistoryEntry := ⟨11, "chat", "hello", "a greeting", "en", []⟩

/-! ### Helper lemmas -/

/-- Counting lines with at least one match is bounded by the total
per-pair match count. -/
lemma countP_any_le_sum_countP (ls : List α) (ps : List β) (f : α → β → Bool) :
    (ls.countP fun l => ps.any (f l)) ≤ (ls.map fun l => ps.countP (f l)).sum := by
  induction ls with
  | nil => simp
  | cons a t ih =>
    rw [List.countP_cons, List.map_cons, List.sum_cons]
    by_cases h : ps.any (f a) = true
    · have h1 : 0 < ps.countP (f a) := by
        rw [List.countP_pos_iff]
        obtain ⟨x, hx, hfx⟩ := List.any_eq_true.mp h
        exact ⟨x, hx, hfx⟩
      rw [if_pos h]
      omega
    · rw [if_neg h]
      omega

/-- Sums of pointwise sums split. -/
lemma sum_map_add (l : List α) (f g : α → ℕ) :
    (l.map fun x => f x + g x).sum = (l.map f).sum + (l.map g).sum := by
  induction l with
  | nil => simp
  | cons a t ih =>
    simp only [List.map_cons, List.sum_cons, ih]
    omega

/-- Rewriting `countP` as a sum of indicator values. -/
lemma countP_eq_sum_ite (l : List α) (p : α → Bool) :
    l.countP p = (l.map fun x => if p x then 1 else 0).sum := by
  induction l with
  | nil => simp
  | cons a t ih =>
    rw [List.countP_cons, List.map_cons, List.sum_cons, ih]
    omega

/-- The double count by lines equals the double count by patterns. -/
lemma sum_countP_comm (ls : List α) (ps : List β) (f : α → β → Bool) :
    (ls.map fun l => ps.countP (f l)).sum =
      (ps.map fun p => ls.countP fun l => f l p).sum := by
  induction ls with
  | nil =>
    simp only [List.map_nil, List.sum_nil, List.countP_nil]
    symm
    apply List.sum_eq_zero
    intro x hx
    simp only [List.mem_map] at hx
    obtain ⟨_, _, hval⟩ := hx
    omega
  | cons a t ih =>
    simp only [List.map_cons, List.sum_cons, ih, List.countP_cons]
    rw [sum_map_add, ← countP_eq_sum_ite]
    omega

/-- The trim in `addEntry` is uniformly a front drop. -/
lemma addEntry_eq_drop (s : List HistoryEntry) (e : HistoryEntry) :
    HistoryStore.addEntry s e = (s ++ [e]).drop (s.length + 1 - 500) := by
  simp only [HistoryStore.addEntry, HistoryStore.save, HistoryStore.MAX_ENTRIES, pySliceLast]
  by_cases h : (s ++ [e]).length > 500
  · rw [if_pos h, if_neg (by norm_num)]
    simp [List.length_append]
  · rw [if_neg h]
    have h0 : s.length + 1 - 500 = 0 := by
      simp only [List.length_append, List.length_cons, List.length_nil] at h
      omega
    rw [h0, List.drop_zero]

/-- Length after an `addEntry`. -/
lemma addEntry_length (s : List HistoryEntry) (e : HistoryEntry) :
    (HistoryStore.addEntry s e).length = min (s.length + 1) 500 := by
  rw [addEntry_eq_drop, List.length_drop, List.length_append]
  simp only [List.length_cons, List.length_nil]
  omega

/-- Folding `addEntry` over a batch keeps exactly the most recent 500. -/
lemma foldl_addEntry (es : List HistoryEntry) :
    ∀ s : List HistoryEntry, s.length ≤ 500 →
      es.foldl HistoryStore.addEntry s = (s ++ es).drop ((s ++ es).length - 500) := by
  induction es with
  | nil =>
    intro s hs
    simp only [List.foldl_nil, List.append_nil]
    have h0 : s.length - 500 = 0 := by omega
    rw [h0, List.drop_zero]
  | cons e t ih =>
    intro s hs
    rw [List.foldl_cons]
    have hlen : (HistoryStore.addEntry s e).length ≤ 500 := by
      rw [addEntry_length]; omega
    rw [ih _ hlen, addEntry_eq_drop]
    have hd : s.length + 1 - 500 ≤ (s ++ [e]).length := by
      simp only [List.length_append, List.length_cons, List.length_nil]
      omega
    rw [← List.drop_append_of_le_length hd, List.drop_drop]
    have hassoc : (s ++ [e]) ++ t = s ++ e :: t := by simp
    rw [hassoc]
    have hidx : s.length + 1 - 500 +
        (((s ++ e :: t).drop (s.length + 1 - 500)).length - 500) =
        (s ++ e :: t).length - 500 := by
      simp only [List.length_drop, List.length_append, List.length_cons]
      omega
    rw [hidx]

/-- The last element added is retrievable at index 1. -/
lemma get_addEntry_one (s : List HistoryEntry) (e : HistoryEntry) :
    HistoryStore.get (HistoryStore.addEntry s e) 1 = some e := by
  rw [addEntry_eq_drop]
  have hlen : ((s ++ [e]).drop (s.length + 1 - 500)).length =
      s.length + 1 - (s.length + 1 - 500) := by
    simp only [List.length_drop, List.length_append, List.length_cons, List.length_nil]
  have hpos : 0 < ((s ++ [e]).drop (s.length + 1 - 500)).length := by
    rw [hlen]; omega
  have h1 : ((s ++ [e]).drop (s.length + 1 - 500)).isEmpty = false := by
    cases hc : (s ++ [e]).drop (s.length + 1 - 500) with
    | nil => rw [hc] at hpos; simp at hpos
    | cons x xs => rfl
  unfold HistoryStore.get
  rw [if_neg]
  · rw [List.getElem?_drop]
    have hidx : s.length + 1 - 500 +
        (((s ++ [e]).drop (s.length + 1 - 500)).length - (1 : ℤ).toNat) = s.length := by
      rw [hlen]; omega
    rw [hidx, List.getElem?_concat_length]
  · simp only [h1, Bool.false_eq_true, false_or]
    omega

/-- Threshold comparison `1/d < s/t` over `ℚ` is the integer comparison
`t < d * s` when `t` and `d` are positive. -/
lemma one_div_lt_div_iff (s t d : ℕ) (ht : 0 < t) (hd : 0 < d) :
    ((1 : ℚ) / d < (s : ℚ) / t) ↔ t < d * s := by
  rw [div_lt_div_iff₀ (by exact_mod_cast hd) (by exact_mod_cast ht), one_mul,
    mul_comm (s : ℚ) (d : ℚ)]
  exact_mod_cast Iff.rfl

/-- The float-free companion agrees with the classifier everywhere. -/
lemma detect_content_type_eq_detectNat (content : String) :
    detect_content_type content = detectNat content := by
  unfold detect_content_type detectNat
  by_cases h : (detectLines content).isEmpty
  · simp [h]
  · have ht : 0 < (detectLines content).length := by
      cases hl : detectLines content
      · rw [hl] at h; simp at h
      · simp [hl]
    have e1 : ((0.05 : ℚ) < (error_score (detectLines content) : ℚ) /
        (detectLines content).length) ↔
        (detectLines content).length < 20 * error_score (detectLines content) := by
      have h5 : (0.05 : ℚ) = 1 / (20 : ℕ) := by norm_num
      rw [h5]; exact one_div_lt_div_iff _ _ _ ht (by norm_num)
    have e2 : ((0.1 : ℚ) < (code_score (detectLines content) : ℚ) /
        (detectLines content).length) ↔
        (detectLines content).length < 10 * code_score (detectLines content) := by
      have h1 : (0.1 : ℚ) = 1 / (10 : ℕ) := by norm_num
      rw [h1]; exact one_div_lt_div_iff _ _ _ ht (by norm_num)
    simp only [e1, e2]

/-! ### Claims -/

/-- C1 (corrected): the error score of the classifier is at least the number
of lines containing at least one error-pattern substring
(case-insensitively), and it equals the total over all
`(line, pattern)` pairs — equivalently the pattern-major double count —
so a line matching several patterns contributes once per matching
pattern rather than once. -/
theorem c1_error_score_counts_pairs (content : String) :
    error_line_count (detectLines content) ≤ error_score (detectLines content) ∧
    error_score (detectLines content) =
      (ERROR_PATTERNS.map fun p =>
        (detectLines content).countP fun line => strContainsCI line p).sum := by
  constructor
  · exact countP_any_le_sum_countP (detectLines content) ERROR_PATTERNS
      fun line p => strContainsCI line p
  · exact sum_countP_comm (detectLines content) ERROR_PATTERNS
      fun line p => strContainsCI line p

/-- C1 counterexample: the single line `"Error: foo"` contains an
error-pattern substring, so the claimed per-line score is 1, but the
code computes an error score of 2 (both `"Error:"` and `"error:"` match
case-insensitively). -/
theorem c1_counterexample :
    error_line_count (detectLines "Error: foo") = 1 ∧
    error_score (detectLines "Error: foo") = 2 := by decide

/-- C2 (corrected): the query text the pipe handler persists is a front
segment of the whitespace-stripped stdin content of length
`min 200 (stripped length)`: the full stripped input when it fits in
200 characters, and only the first 200 characters otherwise. -/
theorem c2_stored_query_truncated (raw : String) :
    (pipeStoredQuery raw).data <+: (pyStrip raw).data ∧
    (pipeStoredQuery raw).length = min 200 (pyStrip raw).length := by
  unfold pipeStoredQuery pipeQueryPreview pyTruncate
  by_cases h : (pyStrip raw).length > 200
  · rw [if_pos h]
    refine ⟨⟨(pyStrip raw).data.drop 200, List.take_append_drop 200 (pyStrip raw).data⟩, ?_⟩
    have hl : (⟨(pyStrip raw).data.take 200⟩ : String).length =
        ((pyStrip raw).data.take 200).length := rfl
    rw [hl, List.length_take]
    rfl
  · rw [if_neg h]
    exact ⟨⟨[], List.append_nil _⟩, by omega⟩

set_option maxRecDepth 4000 in
/-- C2 counterexample: a 201-character piped input is not stored in
full — the persisted query is its 200-character truncation. -/
theorem c2_counterexample :
    pipeStoredQuery longRaw ≠ longRaw ∧ (pipeStoredQuery longRaw).length = 200 := by
  decide

/-- C3 (corrected): `_load` yields the empty store for a missing file
and for any readable document that fails to parse or to build entries
(`JSONDecodeError`, `TypeError`, `KeyError` are caught), but an
unreadable file makes the read error propagate to the caller instead of
behaving as empty. -/
theorem c3_load_corruption_handling :
    HistoryStore.load .missing = .ok [] ∧
    (∀ doc : HistoryStore.RawDoc,
      doc = .notJson ∨ doc = .badShape →
      HistoryStore.load (.stored doc) = .ok []) ∧
    HistoryStore.load .unreadable = .error "OSError: could not read history file" := by
  refine ⟨rfl, ?_, rfl⟩
  intro doc h
  rcases h with h | h <;> rw [h] <;> rfl

/-- C3 witness: the not-JSON document loads as the empty store. -/
theorem c3_witness :
    (HistoryStore.RawDoc.notJson = .notJson ∨ HistoryStore.RawDoc.notJson = .badShape) ∧
    HistoryStore.load (.stored .notJson) = .ok [] :=
  ⟨Or.inl rfl, c3_load_corruption_handling.2.1 .notJson (Or.inl rfl)⟩

/-- C3 counterexample: on an unreadable backing file the load raises
(`OSError` is not in the `except` clause), contradicting "never raises
to the caller". -/
theorem c3_counterexample :
    HistoryStore.load .unreadable ≠ .ok [] ∧
    HistoryStore.load .unreadable = .error "OSError: could not read history file" := by
  refine ⟨?_, rfl⟩
  intro h
  simp [HistoryStore.load] at h

/-- C4 (confirmed): every `add` leaves at most 500 entries; a batch of
adds starting from the empty store keeps exactly the most recent 500
(the front, i.e. oldest, entries are dropped — FIFO eviction); and
`clear` is the only other entry-removing operation (the reads
`list_entries`, `search`, `get`, `count` are pure and leave the entry
list untouched in this model). -/
theorem c4_trim_retains_most_recent_500 :
    (∀ (entries : List HistoryEntry) (e : HistoryEntry),
      (HistoryStore.addEntry entries e).length ≤ 500) ∧
    (∀ es : List HistoryEntry,
      es.foldl HistoryStore.addEntry [] = es.drop (es.length - 500)) ∧
    HistoryStore.clear = [] := by
  refine ⟨?_, ?_, rfl⟩
  · intro entries e
    rw [addEntry_length]
    omega
  · intro es
    have h := foldl_addEntry es [] (by simp)
    simpa using h

/-- C5 (confirmed): for `1 ≤ index ≤ count`, `get index` is the
`index`-th most recent entry (position `index - 1` of the reversed
list); any other integer index yields `None`; and `get 1` right after
an `add` returns the entry just added. -/
theorem c5_get_one_based_from_recent :
    (∀ (entries : List HistoryEntry) (index : ℤ),
      1 ≤ index → index ≤ entries.length →
      HistoryStore.get entries index = entries.reverse[index.toNat - 1]?) ∧
    (∀ (entries : List HistoryEntry) (index : ℤ),
      index < 1 ∨ (entries.length : ℤ) < index →
      HistoryStore.get entries index = none) ∧
    (∀ (entries : List HistoryEntry) (e : HistoryEntry),
      HistoryStore.get (HistoryStore.addEntry entries e) 1 = some e) := by
  refine ⟨?_, ?_, get_addEntry_one⟩
  · intro entries index h1 h2
    have hi : index.toNat - 1 < entries.length := by omega
    have hne : entries.isEmpty = false := by
      cases hc : entries with
      | nil => rw [hc] at h2; simp at h2; omega
      | cons a t => rfl
    unfold HistoryStore.get
    rw [if_neg (by simp only [hne, Bool.false_eq_true, false_or]; omega)]
    rw [List.getElem?_reverse hi]
    have hix : entries.length - index.toNat =
        entries.length - 1 - (index.toNat - 1) := by omega
    rw [hix]
  · intro entries index h
    have hc : entries.isEmpty = true ∨ index < 1 ∨ index > (entries.length : ℤ) := by
      rcases h with h | h
      · exact Or.inr (Or.inl h)
      · exact Or.inr (Or.inr h)
    unfold HistoryStore.get
    rw [if_pos hc]

/-- C5 witness: on the two-entry store `[entryA, entryB]`, index 2
retrieves `entryA` (second most recent), index 0 is out of range, and
`get 1` after adding `entryB` again returns it. -/
theorem c5_witness :
    ((1 : ℤ) ≤ 2 ∧ (2 : ℤ) ≤ (([entryA, entryB] : List HistoryEntry).length : ℤ) ∧
      HistoryStore.get [entryA, entryB] 2 =
        ([entryA, entryB] : List HistoryEntry).reverse[(2 : ℤ).toNat - 1]?) ∧
    (((0 : ℤ) < 1 ∨ (([entryA, entryB] : List HistoryEntry).length : ℤ) < 0) ∧
      HistoryStore.get [entryA, entryB] 0 = none) ∧
    HistoryStore.get (HistoryStore.addEntry [entryA, entryB] entryB) 1 = some entryB :=
  ⟨⟨by decide, by decide,
    c5_get_one_based_from_recent.1 [entryA, entryB] 2 (by decide) (by decide)⟩,
   ⟨Or.inl (by decide),
    c5_get_one_based_from_recent.2.1 [entryA, entryB] 0 (Or.inl (by decide))⟩,
   c5_get_one_based_from_recent.2.2 [entryA, entryB] entryB⟩

/-- C6 (confirmed): `search` returns a suffix of the in-order list of
matching entries (so insertion order is kept and the most recent
matches come last), of length `min limit (number of matches)`; when the
matches fit in `limit` it returns exactly all of them; and every
returned entry matches the query case-insensitively in its query or
explanation text. -/
theorem c6_search_matches_and_limit (entries : List HistoryEntry) (q : String)
    (limit : ℕ) (h : 1 ≤ limit) :
    HistoryStore.search entries q limit <:+ entries.filter (HistoryStore.matchesQuery q) ∧
    (HistoryStore.search entries q limit).length =
      min limit (entries.filter (HistoryStore.matchesQuery q)).length ∧
    ((entries.filter (HistoryStore.matchesQuery q)).length ≤ limit →
      HistoryStore.search entries q limit = entries.filter (HistoryStore.matchesQuery q)) ∧
    ∀ e ∈ HistoryStore.search entries q limit, HistoryStore.matchesQuery q e = true := by
  simp only [HistoryStore.search, pySliceLast]
  rw [if_neg (by omega)]
  refine ⟨List.drop_suffix _ _, ?_, ?_, ?_⟩
  · rw [List.length_drop]
    omega
  · intro hm
    have h0 : (entries.filter (HistoryStore.matchesQuery q)).length - limit = 0 := by omega
    rw [h0, List.drop_zero]
  · intro e he
    have hm : e ∈ entries.filter (HistoryStore.matchesQuery q) :=
      (List.drop_suffix _ _).subset he
    exact (List.mem_filter.mp hm).2

/-- C6 witness: the example from the specification — searching `"docker"` over
the three sample entries with the default limit finds exactly the two
docker entries. -/
theorem c6_witness :
    (1 : ℕ) ≤ 20 ∧
    (HistoryStore.search dockerEntries "docker" 20 <:+
      dockerEntries.filter (HistoryStore.matchesQuery "docker") ∧
    (HistoryStore.search dockerEntries "docker" 20).length =
      min 20 (dockerEntries.filter (HistoryStore.matchesQuery "docker")).length ∧
    ((dockerEntries.filter (HistoryStore.matchesQuery "docker")).length ≤ 20 →
      HistoryStore.search dockerEntries "docker" 20 =
        dockerEntries.filter (HistoryStore.matchesQuery "docker")) ∧
    ∀ e ∈ HistoryStore.search dockerEntries "docker" 20,
      HistoryStore.matchesQuery "docker" e = true) :=
  ⟨by decide, c6_search_matches_and_limit dockerEntries "docker" 20 (by decide)⟩

/-- C7 (confirmed): whenever the classifier line list are nonempty and at
least 6 percent of them contain an error-pattern substring
(case-insensitively), the classifier returns `"error"`, whatever else
the text contains. -/
theorem c7_error_ratio_forces_error (content : String)
    (hne : detectLines content ≠ [])
    (h6 : 6 * (detectLines content).length ≤
      100 * error_line_count (detectLines content)) :
    detect_content_type content = "error" := by
  have ht : 0 < (detectLines content).length := by
    cases hc : detectLines content with
    | nil => exact absurd hc hne
    | cons a t => simp
  have hm : error_line_count (detectLines content) ≤ error_score (detectLines content) :=
    countP_any_le_sum_countP (detectLines content) ERROR_PATTERNS
      fun line p => strContainsCI line p
  have hie : (detectLines content).isEmpty = false := by
    cases hc : detectLines content with
    | nil => exact absurd hc hne
    | cons a t => rfl
  rw [detect_content_type_eq_detectNat]
  unfold detectNat
  rw [if_neg (by simp [hie]), if_pos ⟨by omega, by omega⟩]

/-- C7 witness: a one-line error message trips the 6 percent threshold
and is classified as an error. -/
theorem c7_witness :
    detectLines "Error: x" ≠ [] ∧
    6 * (detectLines "Error: x").length ≤
      100 * error_line_count (detectLines "Error: x") ∧
    detect_content_type "Error: x" = "error" :=
  ⟨by decide, by decide, c7_error_ratio_forces_error "Error: x" (by decide) (by decide)⟩

/-- C8 (corrected): with no error-pattern match anywhere, at least 11
percent of lines containing a code keyword forces `"code"`; and with no
error-pattern match and a total keyword occurrence count (counted once
per keyword per line, `code_score` in the code) at most 10 percent of
the lines, the classifier returns `"auto"`.  The "auto" half holds for
the pair count, not the per-line count the claim uses. -/
theorem c8_code_and_auto_thresholds (content : String) :
    (detectLines content ≠ [] → error_score (detectLines content) = 0 →
      11 * (detectLines content).length ≤
        100 * code_line_count (detectLines content) →
      detect_content_type content = "code") ∧
    (detectLines content ≠ [] → error_score (detectLines content) = 0 →
      10 * code_score (detectLines content) ≤ (detectLines content).length →
      detect_content_type content = "auto") := by
  constructor
  · intro hne h0 h11
    have ht : 0 < (detectLines content).length := by
      cases hc : detectLines content with
      | nil => exact absurd hc hne
      | cons a t => simp
    have hm : code_line_count (detectLines content) ≤ code_score (detectLines content) :=
      countP_any_le_sum_countP (detectLines content) code_indicators
        fun line ind => strContains line ind
    have hie : (detectLines content).isEmpty = false := by
      cases hc : detectLines content with
      | nil => exact absurd hc hne
      | cons a t => rfl
    rw [detect_content_type_eq_detectNat]
    unfold detectNat
    rw [if_neg (by simp [hie]), if_neg (by simp [h0]), if_pos ⟨by omega, by omega⟩]
  · intro hne h0 h10
    have hie : (detectLines content).isEmpty = false := by
      cases hc : detectLines content with
      | nil => exact absurd hc hne
      | cons a t => rfl
    rw [detect_content_type_eq_detectNat]
    unfold detectNat
    rw [if_neg (by simp [hie]), if_neg (by simp [h0]),
      if_neg (by rintro ⟨hpos, hlt⟩; omega)]

/-- C8 witness: a two-line snippet of definitions is classified as
code, and a plain two-line listing with no markers as auto. -/
theorem c8_witness :
    (detectLines "def x\nclass y" ≠ [] ∧
      error_score (detectLines "def x\nclass y") = 0 ∧
      11 * (detectLines "def x\nclass y").length ≤
        100 * code_line_count (detectLines "def x\nclass y") ∧
      detect_content_type "def x\nclass y" = "code") ∧
    (detectLines "hello\nworld" ≠ [] ∧
      error_score (detectLines "hello\nworld") = 0 ∧
      10 * code_score (detectLines "hello\nworld") ≤ (detectLines "hello\nworld").length ∧
      detect_content_type "hello\nworld" = "auto") :=
  ⟨⟨by decide, by decide, by decide,
    (c8_code_and_auto_thresholds "def x\nclass y").1 (by decide) (by decide) (by decide)⟩,
   ⟨by decide, by decide, by decide,
    (c8_code_and_auto_thresholds "hello\nworld").2 (by decide) (by decide) (by decide)⟩⟩

set_option maxRecDepth 8000 in
/-- C8 counterexample: ten lines, one of which packs three code
keywords and none of which has an error pattern.  Only 10 percent of
lines contain a keyword — below every threshold the claim names — yet
the pair-counting `code_score` is 3/10 and the classifier answers
`"code"`, not `"auto"`. -/
theorem c8_counterexample :
    error_score (detectLines "def class import x\na\na\na\na\na\na\na\na\na") = 0 ∧
    100 * code_line_count (detectLines "def class import x\na\na\na\na\na\na\na\na\na") <
      11 * (detectLines "def class import x\na\na\na\na\na\na\na\na\na").length ∧
    detect_content_type "def class import x\na\na\na\na\na\na\na\na\na" = "code" := by
  refine ⟨by decide, by decide, ?_⟩
  rw [detect_content_type_eq_detectNat]
  decide

/-- C9 (corrected): with a token present, a non-200 response fails with
a `CopilotCLIError` carrying the status code and the body truncated to
300 characters; a 200 response whose JSON decodes but lacks the
expected `choices`/`message`/`content` shape (a `KeyError` or
`IndexError` in the access chain) fails with a `CopilotCLIError`
carrying the parse-failure reason; but a 200 response whose body is not
JSON at all propagates the raw `json.JSONDecodeError`, which is outside
the `CopilotCLIError` family.  In every case the single call fails
immediately; the model consumes exactly one response and has no retry
path. -/
theorem c9_ask_messages_failure_modes (tok : String) (resp : HttpResponse) :
    (resp.status_code ≠ 200 →
      ask_messages (some tok) resp = .error (.copilotCLIError
        ("GitHub Models API HTTP " ++ toString resp.status_code ++ ": " ++
          pyTruncate resp.text 300))) ∧
    (∀ m, resp.status_code = 200 → resp.body = .error m →
      ask_messages (some tok) resp = .error (.uncaught (.jsonDecodeError m))) ∧
    (∀ data e, resp.status_code = 200 → resp.body = .ok data →
      pyIn "error" data = .ok false → contentChain data = .error e →
      caughtByParseHandler e = true →
      ask_messages (some tok) resp = .error (.copilotCLIError
        ("Failed to parse API response: " ++ pyExcMessage e))) := by
  refine ⟨?_, ?_, ?_⟩
  · intro h
    simp only [ask_messages]
    rw [if_pos h]
  · intro m h200 hbody
    simp only [ask_messages]
    rw [if_neg (fun hn => hn h200)]
    simp only [hbody]
  · intro data e h200 hbody hin hchain hcaught
    simp only [ask_messages]
    rw [if_neg (fun hn => hn h200)]
    simp only [hbody, hin, hchain, hcaught, if_true]

/-- C9 witness: a 500 response, a 200 response with a non-JSON body,
and a 200 response with an empty `choices` array exercise the three
failure modes. -/
theorem c9_witness :
    ((500 : ℤ) ≠ 200 ∧
      ask_messages (some "tok") ⟨500, "Internal Server Error", .ok .null⟩ =
        .error (.copilotCLIError ("GitHub Models API HTTP " ++ toString (500 : ℤ) ++
          ": " ++ pyTruncate "Internal Server Error" 300))) ∧
    ask_messages (some "tok") ⟨200, "not json", .error "Expecting value"⟩ =
      .error (.uncaught (.jsonDecodeError "Expecting value")) ∧
    ask_messages (some "tok") ⟨200, "empty choices", .ok (.obj [("choices", .arr [])])⟩ =
      .error (.copilotCLIError ("Failed to parse API response: " ++
        pyExcMessage .indexError)) :=
  ⟨⟨by decide,
    (c9_ask_messages_failure_modes "tok" ⟨500, "Internal Server Error", .ok .null⟩).1
      (by decide)⟩,
   (c9_ask_messages_failure_modes "tok" ⟨200, "not json", .error "Expecting value"⟩).2.1
     "Expecting value" rfl rfl,
   (c9_ask_messages_failure_modes "tok"
       ⟨200, "empty choices", .ok (.obj [("choices", .arr [])])⟩).2.2
     (.obj [("choices", .arr [])]) .indexError rfl rfl rfl rfl rfl⟩

/-- C9 counterexample: a 200 response whose body fails JSON decoding
escapes as the raw decode exception, not as a member of the
`CopilotCLIError` family the claim requires. -/
theorem c9_counterexample :
    ask_messages (some "tok")
        ⟨200, "oops", .error "Expecting value: line 1 column 1 (char 0)"⟩ =
      .error (.uncaught (.jsonDecodeError "Expecting value: line 1 column 1 (char 0)")) ∧
    BackendErr.isCopilotCLI
      (.uncaught (.jsonDecodeError "Expecting value: line 1 column 1 (char 0)")) = false :=
  ⟨rfl, rfl⟩

/-- C10 (confirmed): with `limit = 0` both `list_entries` and `search`
return all (matching) entries — the Python slice `entries[-0:]` is the whole
list — while any `limit ≥ 1` caps the result length at `limit`. -/
theorem c10_limit_zero_means_all (entries : List HistoryEntry) (q ct : String)
    (limit : ℕ) :
    HistoryStore.list_entries entries 0 none = entries ∧
    (ct ≠ "" → HistoryStore.list_entries entries 0 (some ct) =
      entries.filter fun e => e.command_type == ct) ∧
    HistoryStore.search entries q 0 = entries.filter (HistoryStore.matchesQuery q) ∧
    (1 ≤ limit →
      (HistoryStore.list_entries entries limit none).length ≤ limit ∧
      (HistoryStore.list_entries entries limit (some ct)).length ≤ limit ∧
      (HistoryStore.search entries q limit).length ≤ limit) := by
  have hslice0 : ∀ l : List HistoryEntry, pySliceLast l 0 = l := by
    intro l
    unfold pySliceLast
    rw [if_pos rfl]
  have hsliceLen : ∀ (l : List HistoryEntry) (n : ℕ), 1 ≤ n →
      (pySliceLast l n).length ≤ n := by
    intro l n hn
    unfold pySliceLast
    rw [if_neg (by omega), List.length_drop]
    omega
  refine ⟨?_, ?_, ?_, ?_⟩
  · simp only [HistoryStore.list_entries]
    exact hslice0 entries
  · intro hct
    simp only [HistoryStore.list_entries]
    rw [if_neg hct]
    exact hslice0 _
  · simp only [HistoryStore.search]
    exact hslice0 _
  · intro hl
    refine ⟨?_, ?_, ?_⟩
    · simp only [HistoryStore.list_entries]
      exact hsliceLen _ _ hl
    · simp only [HistoryStore.list_entries]
      by_cases hct : ct = ""
      · rw [if_pos hct]
        exact hsliceLen _ _ hl
      · rw [if_neg hct]
        exact hsliceLen _ _ hl
    · simp only [HistoryStore.search]
      exact hsliceLen _ _ hl

/-- C10 witness: on the sample store, a zero limit returns the full
filtered list and a limit of one caps the search result at one entry. -/
theorem c10_witness :
    ("pipe" ≠ "") ∧ ((1 : ℕ) ≤ 1) ∧
    HistoryStore.list_entries dockerEntries 0 (some "pipe") =
      dockerEntries.filter (fun e => e.command_type == "pipe") ∧
    (HistoryStore.search dockerEntries "docker" 1).length ≤ 1 :=
  ⟨by decide, by decide,
   (c10_limit_zero_means_all dockerEntries "docker" "pipe" 1).2.1 (by decide),
   ((c10_limit_zero_means_all dockerEntries "docker" "pipe" 1).2.2.2 (by decide)).2.2⟩
